import Mathlib

/-!
AgriBalance quota-allocation and harvest-validation engine: a shallow embedding.

This file embeds, in Lean 4, the core of the AgriBalance web application:
the `AdminQuota` allocation ledger, the quota resolver, the harvest
validator, the cultivation state updates and the admin review operations,
translated from `app/models.py`, `app/routes/cultivation.py` and
`app/routes/admin.py`.

Modelling conventions:
* Python `float` fields (areas, quantities, prices) are modelled as `Rat`.
  All comparisons used by the claims behave identically on the rationals
  and on the binary doubles at the inputs considered.
* Dates are modelled as `Int` day numbers ordered by `≤`.
* SQLAlchemy tables are modelled as Lean lists; `Query.filter_by(...).first()`
  becomes `List.find?` with the transcribed predicate.
* Python truthiness on optional numeric fields (`if self.max_per_farmer:`)
  is `none` or `some 0` being falsy, captured by `ratTruthy`; truthiness of
  optional strings (`if land.village:`) is `none` or `some ""` being falsy,
  captured by `strTruthy`.
* A Python method that raises (`raise ValueError`) or a request handler
  that returns without reaching `db.session.commit()` leaves the committed
  database state unchanged (Flask-SQLAlchemy rolls the session back at
  request teardown), so a failing operation is modelled as `none` /
  `.error` with no state change.
* `datetime` bookkeeping columns (`created_at`, `updated_at`,
  `gps_polygon`, advisory text blobs) carry no logic and are omitted.
-/

/-- Python truthiness of an optional numeric value: `None` and `0` are falsy. -/
def ratTruthy : Option Rat → Bool
  | none => false
  | some x => x != 0

/-- Python truthiness of an optional string: `None` and `""` are falsy. -/
def strTruthy : Option String → Bool
  | none => false
  | some s => s != ""

/-- Model of `AdminQuota` (app/models.py): admin-controlled crop cultivation quota with
geographic scope, season window, area limits and allocation counters. -/
structure AdminQuota where
  id : Nat
  country : String
  state : Option String
  district : Option String
  taluk : Option String
  village : Option String
  crop_name : String
  harvest_season_start : Option Int
  harvest_season_end : Option Int
  total_allowed_area : Rat
  area_unit : String
  max_per_farmer : Option Rat
  allocated_area : Rat
  allocated_farmer_count : Int
  predicted_demand_volume : Option Rat
  min_price_per_unit : Option Rat
  max_price_per_unit : Option Rat
  price_unit : String
  is_active : Bool
  deriving Repr, DecidableEq

/-- Model of `Land` (app/models.py): the location hierarchy and size of a land parcel. -/
structure Land where
  id : Nat
  user_id : Nat
  country : String
  state : Option String
  district : Option String
  taluk : Option String
  village : Option String
  land_size : Rat
  deriving Repr, DecidableEq

/-- Model of `Cultivation` (app/models.py): one crop cycle of one farmer on one land,
optionally holding area against a quota. Status is a string, as in the code. -/
structure Cultivation where
  id : Nat
  user_id : Nat
  land_id : Nat
  quota_id : Option Nat
  crop_name : String
  area_used : Rat
  status : String
  estimated_yield : Option Rat
  actual_yield : Option Rat
  actual_harvest_date : Option Int
  max_allowed_sale_quantity : Option Rat
  deriving Repr, DecidableEq

/-- Model of `RegionLimit` (app/models.py): legacy flat (district, crop) area cap. -/
structure RegionLimit where
  district : String
  crop_name : String
  max_area : Rat
  max_cultivation_count : Int
  current_area_used : Rat
  current_cultivation_count : Int
  is_active : Bool
  deriving Repr, DecidableEq

/-- Model of `HarvestSale` (app/models.py): a harvest-to-sale submission awaiting
admin review. -/
structure HarvestSale where
  id : Nat
  cultivation_id : Nat
  user_id : Nat
  actual_yield_quantity : Rat
  selling_quantity : Rat
  approved_quantity : Option Rat
  status : String
  admin_notes : Option String
  reviewed_by : Option Nat
  reviewed_at : Option Int
  deriving Repr, DecidableEq

/-- Method `AdminQuota.remaining_area` (app/models.py): remaining available area. -/
def AdminQuota.remaining_area (q : AdminQuota) : Rat :=
  q.total_allowed_area - q.allocated_area

/-- Method `AdminQuota.is_quota_available` (app/models.py): check whether the quota
can serve `requested_area`. The `farmer_id` parameter is accepted, as in the
source, but never read. Returns `(ok, reason)`. -/
def AdminQuota.is_quota_available (q : AdminQuota) (requested_area : Rat)
    (farmer_id : Option Nat) : Bool × String :=
  if !q.is_active then
    (false, "Quota is not active")
  else
    let remaining := q.remaining_area
    if remaining < requested_area then
      (false, "Only " ++ toString remaining ++ " " ++ q.area_unit ++ " available")
    else if ratTruthy q.max_per_farmer && requested_area > q.max_per_farmer.getD 0 then
      (false, "Maximum " ++ toString (q.max_per_farmer.getD 0) ++ " " ++ q.area_unit ++ " per farmer")
    else
      (true, "Quota available")

/-- The farmer's existing allocation against quota `qid`: the sum of
`area_used` over the farmer's cultivations on that quota whose status is
`planned`, `active` or `harvested` (the SQL aggregate inside
`AdminQuota.check_per_farmer_limit`). -/
def existingFarmerArea (cs : List Cultivation) (qid : Nat) (farmer_id : Nat) : Rat :=
  (cs.filter (fun c =>
    c.quota_id == some qid && c.user_id == farmer_id &&
      (c.status == "planned" || c.status == "active" || c.status == "harvested"))).foldl
    (fun acc c => acc + c.area_used) 0

/-- Method `AdminQuota.check_per_farmer_limit` (app/models.py): cumulative
per-farmer check over the cultivation table `cs`. Defined in the source but
invoked by no caller in the repository. -/
def AdminQuota.check_per_farmer_limit (q : AdminQuota) (cs : List Cultivation)
    (farmer_id : Nat) (requested_area : Rat) : Bool × String :=
  if !ratTruthy q.max_per_farmer then
    (true, "No per-farmer limit set")
  else
    let existing_area := existingFarmerArea cs q.id farmer_id
    let total_requested := existing_area + requested_area
    if total_requested > q.max_per_farmer.getD 0 then
      (false, "Per-farmer limit exceeded")
    else
      (true, "Within per-farmer limit")

/-- Method `AdminQuota.allocate_area` (app/models.py): allocate `area` from the
quota; raises (here: `none`) when the allocation would exceed
`total_allowed_area`, otherwise increments `allocated_area` and, when
`increment_farmer_count`, the farmer counter. -/
def AdminQuota.allocate_area (q : AdminQuota) (area : Rat)
    (increment_farmer_count : Bool) : Option AdminQuota :=
  if q.allocated_area + area > q.total_allowed_area then
    none
  else
    some { q with
      allocated_area := q.allocated_area + area,
      allocated_farmer_count :=
        if increment_farmer_count then q.allocated_farmer_count + 1
        else q.allocated_farmer_count }

/-- Method `AdminQuota.release_area` (app/models.py): release `area` back to the
quota, clamping both counters at zero. -/
def AdminQuota.release_area (q : AdminQuota) (area : Rat)
    (decrement_farmer_count : Bool) : AdminQuota :=
  { q with
    allocated_area := max 0 (q.allocated_area - area),
    allocated_farmer_count :=
      if decrement_farmer_count then max 0 (q.allocated_farmer_count - 1)
      else q.allocated_farmer_count }

/-- The quota invariant of the specification:
`0 ≤ allocated_area ≤ total_allowed_area` and `allocated_farmer_count ≥ 0`. -/
def QuotaInv (q : AdminQuota) : Prop :=
  0 ≤ q.allocated_area ∧ q.allocated_area ≤ q.total_allowed_area ∧
    0 ≤ q.allocated_farmer_count

instance (q : AdminQuota) : Decidable (QuotaInv q) := by
  unfold QuotaInv; infer_instance

/-- The `filter_by` predicate of the village-level query in
`find_matching_quota` (app/routes/cultivation.py). -/
def villagePred (land : Land) (crop_name : String) (q : AdminQuota) : Bool :=
  q.crop_name == crop_name && q.village == land.village && q.is_active

/-- The `filter_by` predicate of the taluk-level query (village scope null). -/
def talukPred (land : Land) (crop_name : String) (q : AdminQuota) : Bool :=
  q.crop_name == crop_name && q.taluk == land.taluk && q.village == none && q.is_active

/-- The `filter_by` predicate of the district-level query (taluk and village
scope null). -/
def districtPred (land : Land) (crop_name : String) (q : AdminQuota) : Bool :=
  q.crop_name == crop_name && q.district == land.district && q.taluk == none &&
    q.village == none && q.is_active

/-- The `filter_by` predicate of the state-level query (district, taluk and
village scope null). -/
def statePred (land : Land) (crop_name : String) (q : AdminQuota) : Bool :=
  q.crop_name == crop_name && q.state == land.state && q.district == none &&
    q.taluk == none && q.village == none && q.is_active

/-- The `filter_by` predicate of the country-level query (all narrower
scopes null). -/
def countryPred (land : Land) (crop_name : String) (q : AdminQuota) : Bool :=
  q.crop_name == crop_name && q.country == land.country && q.state == none &&
    q.district == none && q.taluk == none && q.village == none && q.is_active

/-- Function `find_matching_quota` (app/routes/cultivation.py): search the active
quotas `qs` from most to least specific level, guarded by truthiness of the
land's location fields, returning the first match. -/
def find_matching_quota (qs : List AdminQuota) (land : Land) (crop_name : String) :
    Option AdminQuota :=
  match (if strTruthy land.village then qs.find? (villagePred land crop_name) else none) with
  | some q => some q
  | none =>
  match (if strTruthy land.taluk then qs.find? (talukPred land crop_name) else none) with
  | some q => some q
  | none =>
  match (if strTruthy land.district then qs.find? (districtPred land crop_name) else none) with
  | some q => some q
  | none =>
  match (if strTruthy land.state then qs.find? (statePred land crop_name) else none) with
  | some q => some q
  | none => qs.find? (countryPred land crop_name)

/-- Expression `land.district or "Other"` (app/routes/cultivation.py): Python `or`
falls through to `"Other"` on a falsy district. -/
def districtOrOther (land : Land) : String :=
  if strTruthy land.district then land.district.getD "" else "Other"

/-- Function `check_region_limits` (app/routes/cultivation.py): the legacy flat
(district, crop) limit check. Returns `(allowed, message, quota)`; the quota
component is always `none` on this path. -/
def check_region_limits (limits : List RegionLimit) (crop_name district : String)
    (area_needed : Rat) : Bool × Option String × Option AdminQuota :=
  match limits.find? (fun l =>
      l.crop_name == crop_name && l.district == district && l.is_active) with
  | none => (true, none, none)
  | some limit =>
    let remaining_area := limit.max_area - limit.current_area_used
    if area_needed > remaining_area then
      (false, some "Only remaining acres available", none)
    else if limit.max_cultivation_count > 0 &&
        limit.current_cultivation_count ≥ limit.max_cultivation_count then
      (false, some "Maximum farmers already cultivating", none)
    else
      (true, none, none)

/-- Function `check_admin_quota` (app/routes/cultivation.py): the cultivation-start
gate. Resolves a quota; when one matches, consults only
`is_quota_available`; otherwise falls back to the legacy region limits. -/
def check_admin_quota (qs : List AdminQuota) (limits : List RegionLimit)
    (land : Land) (crop_name : String) (area_needed : Rat) (farmer_id : Nat) :
    Bool × Option String × Option AdminQuota :=
  match find_matching_quota qs land crop_name with
  | none => check_region_limits limits crop_name (districtOrOther land) area_needed
  | some quota =>
    let r := quota.is_quota_available area_needed (some farmer_id)
    if r.1 then
      (true, some "Quota available", some quota)
    else
      (false, some r.2, none)

/-- The quota-counter update in `start_cultivation`
(app/routes/cultivation.py, lines 661-664): performed only after
`check_admin_quota` succeeded with a matched quota; increments
`allocated_area` by the requested area and `allocated_farmer_count` by one
directly on the quota row. -/
def start_cultivation_counter_update (q : AdminQuota) (area_requested : Rat) :
    AdminQuota :=
  { q with
    allocated_area := q.allocated_area + area_requested,
    allocated_farmer_count := q.allocated_farmer_count + 1 }

/-- Tail of `Cultivation.validate_harvest_submission` (app/models.py)
after the window check: the status check followed by the yield-tolerance
check, which is skipped when `estimated_yield` is falsy. -/
def validate_rest (c : Cultivation) (harvest_quantity tolerance : Rat) :
    Bool × Option String :=
  if !(c.status == "planned" || c.status == "active") then
    (false, some "Only active cultivations can be harvested")
  else if ratTruthy c.estimated_yield &&
      harvest_quantity > c.estimated_yield.getD 0 * (1 + tolerance) then
    (false, some "Harvest quantity exceeds estimated yield plus tolerance")
  else
    (true, none)

/-- Method `Cultivation.validate_harvest_submission` (app/models.py): the
harvest-window check against the cultivation's quota (run only when both
season bounds are set), then the status and yield-tolerance checks of
`validate_rest`, mirroring the method's sequential early returns. `quota`
is the cultivation's `quota` relationship. Returns
`(is_valid, error_message)`. -/
def validate_harvest_submission (quota : Option AdminQuota) (c : Cultivation)
    (harvest_date : Int) (harvest_quantity : Rat) (tolerance : Rat) :
    Bool × Option String :=
  match quota with
  | some q =>
    match q.harvest_season_start, q.harvest_season_end with
    | some s, some e =>
      if !(s ≤ harvest_date && harvest_date ≤ e) then
        (false, some "Harvest date must be between season start and season end")
      else validate_rest c harvest_quantity tolerance
    | _, _ => validate_rest c harvest_quantity tolerance
  | none => validate_rest c harvest_quantity tolerance

/-- The state touched by `Cultivation.cancel_cultivation`: the cultivation
row, its optional quota row, and the matching active legacy `RegionLimit`
row for (crop, land district) when one exists. -/
structure CancelState where
  cultivation : Cultivation
  quota : Option AdminQuota
  region_limit : Option RegionLimit
  deriving Repr, DecidableEq

/-- Method `Cultivation.cancel_cultivation` (app/models.py): raises (here `none`)
when the status is `harvested`; otherwise releases `area_used` from the
quota (decrementing the farmer count), decrements the legacy region-limit
counters clamped at zero, and sets the status to `cancelled`. -/
def cancel_cultivation (st : CancelState) : Option CancelState :=
  if st.cultivation.status == "harvested" then
    none
  else
    some { st with
      quota := st.quota.map (fun q => q.release_area st.cultivation.area_used true),
      region_limit := st.region_limit.map (fun l =>
        { l with
          current_area_used := max 0 (l.current_area_used - st.cultivation.area_used),
          current_cultivation_count := max 0 (l.current_cultivation_count - 1) }),
      cultivation := { st.cultivation with status := "cancelled" } }

/-- Handler `update_status` (app/routes/cultivation.py): sets the requested status
whenever it is one of `planned`, `active`, `harvested`, `failed` — with no
check of the current status; on `harvested` it also records the harvest
date and, when the form supplied one, the actual yield. Any other requested
status leaves the cultivation unchanged. -/
def update_status (c : Cultivation) (new_status : String)
    (actual_yield_form : Option Rat) (today : Int) : Cultivation :=
  if new_status == "planned" || new_status == "active" ||
      new_status == "harvested" || new_status == "failed" then
    let c1 := { c with status := new_status }
    if new_status == "harvested" then
      { c1 with
        actual_harvest_date := some today,
        actual_yield :=
          match actual_yield_form with
          | some v => some v
          | none => c1.actual_yield }
    else c1
  else c

/-- A date field of the quota edit form: missing/empty string, a string
that fails `strptime`, or a parsed date. -/
inductive DateField where
  | empty
  | bad
  | parsed (d : Int)
  deriving Repr, DecidableEq

/-- Outcome of the date-parsing prologue of `edit_quota` for one field:
`none` when `strptime` raised (the edit is rejected), otherwise the value
the field is set to (`none` for an empty string). -/
def DateField.parse : DateField → Option (Option Int)
  | .empty => some none
  | .bad => none
  | .parsed d => some (some d)

/-- The POST form of `edit_quota` (app/routes/admin.py). `none` in a
`form.get(key, current)` field means the key is absent and the current
value is kept; for the `float(...) if truthy else ...` fields, `none`
means the submitted string was falsy. Numeric fields are assumed
well-formed (a malformed number raises an uncaught `ValueError`, outside
the rejection paths modelled here). -/
structure EditQuotaForm where
  harvest_season_start : DateField
  harvest_season_end : DateField
  country : Option String
  state : Option String
  district : Option String
  taluk : Option String
  village : Option String
  crop_name : Option String
  total_allowed_area : Option Rat
  area_unit : Option String
  max_per_farmer : Option Rat
  predicted_demand_volume : Option Rat
  min_price_per_unit : Option Rat
  max_price_per_unit : Option Rat
  price_unit : Option String
  is_active : Bool
  deriving Repr, DecidableEq

/-- Helper for `form.get(key, current)` on an optional-string column. -/
def formGetOpt (field : Option String) (current : Option String) : Option String :=
  match field with
  | some s => some s
  | none => current

/-- Handler `edit_quota` (app/routes/admin.py, POST branch): parses the season
dates (rejecting on a malformed non-empty string), then applies the quota
integrity rule — the new `total_allowed_area` may not fall below the
current `allocated_area` — and on success commits the updated quota.
A rejection returns before `db.session.commit()`; the pending attribute
assignments made before the check are rolled back at request teardown, so
the committed quota state is unchanged and the result is `.error`. -/
def edit_quota (q : AdminQuota) (f : EditQuotaForm) : Except String AdminQuota :=
  match f.harvest_season_start.parse with
  | none => .error "Invalid harvest season start date format."
  | some hs =>
  match f.harvest_season_end.parse with
  | none => .error "Invalid harvest season end date format."
  | some he =>
    let new_total_allowed_area := f.total_allowed_area.getD q.total_allowed_area
    if new_total_allowed_area < q.allocated_area then
      .error "Cannot reduce total allowed area below current allocated area."
    else
      .ok { q with
        harvest_season_start := hs,
        harvest_season_end := he,
        country := f.country.getD q.country,
        state := formGetOpt f.state q.state,
        district := formGetOpt f.district q.district,
        taluk := formGetOpt f.taluk q.taluk,
        village := formGetOpt f.village q.village,
        crop_name := f.crop_name.getD q.crop_name,
        total_allowed_area := new_total_allowed_area,
        area_unit := f.area_unit.getD q.area_unit,
        max_per_farmer := f.max_per_farmer,
        predicted_demand_volume :=
          match f.predicted_demand_volume with
          | some v => some v
          | none => q.predicted_demand_volume,
        min_price_per_unit :=
          match f.min_price_per_unit with
          | some v => some v
          | none => q.min_price_per_unit,
        max_price_per_unit :=
          match f.max_price_per_unit with
          | some v => some v
          | none => q.max_price_per_unit,
        price_unit := f.price_unit.getD q.price_unit,
        is_active := f.is_active }

/-- Handler `approve_harvest_sale` (app/routes/admin.py): sets `approved_quantity`
to the submitted value (falling back to `selling_quantity` on a falsy
form field), marks the sale `approved` and records the reviewer — with no
check of the sale's current status. -/
def approve_harvest_sale (s : HarvestSale) (approved_qty : Option Rat)
    (admin_notes : Option String) (admin_id : Nat) (now : Int) : HarvestSale :=
  { s with
    approved_quantity := some (approved_qty.getD s.selling_quantity),
    status := "approved",
    admin_notes := admin_notes,
    reviewed_by := some admin_id,
    reviewed_at := some now }

/-- Handler `reject_harvest_sale` (app/routes/admin.py): marks the sale `rejected`
and records the reviewer — with no check of the sale's current status. -/
def reject_harvest_sale (s : HarvestSale) (admin_notes : String)
    (admin_id : Nat) (now : Int) : HarvestSale :=
  { s with
    status := "rejected",
    admin_notes := some admin_notes,
    reviewed_by := some admin_id,
    reviewed_at := some now }

/-- One quota-mutating operation of the core, with the arguments it takes
from its call site: the ledger methods `allocate_area` and `release_area`,
the direct counter update performed by `start_cultivation` (guarded by
`is_quota_available`, which is how `check_admin_quota` gates it), and the
release performed by `cancel_cultivation` (guarded by the cultivation's
status not being `harvested`). -/
inductive QuotaOp where
  | allocate (area : Rat) (increment_farmer_count : Bool)
  | release (area : Rat) (decrement_farmer_count : Bool)
  | start (area : Rat)
  | cancel (area : Rat) (status : String)
  deriving Repr, DecidableEq

/-- The area argument carried by a quota operation. -/
def QuotaOp.area : QuotaOp → Rat
  | .allocate a _ => a
  | .release a _ => a
  | .start a => a
  | .cancel a _ => a

/-- Sequential execution of one quota-mutating operation. A rejected
operation (failed availability check, `allocate_area` raising, cancelling a
harvested cultivation) leaves the quota unchanged — the source rejects the
whole request without partial application. -/
def applyQuotaOp (q : AdminQuota) : QuotaOp → AdminQuota
  | .allocate a inc =>
    match q.allocate_area a inc with
    | some q1 => q1
    | none => q
  | .release a dec => q.release_area a dec
  | .start a =>
    if (q.is_quota_available a none).1 then
      start_cultivation_counter_update q a
    else q
  | .cancel a status =>
    if status == "harvested" then q
    else q.release_area a true

/-- Sequential execution of a list of quota-mutating operations. -/
def runQuotaOps (q : AdminQuota) (ops : List QuotaOp) : AdminQuota :=
  ops.foldl applyQuotaOp q

/-- Claim C10: the result of `is_quota_available(requested_area, farmer_id)`
is identical for all values of `farmer_id`, including `None` — the
`farmer_id` argument has no influence on the availability decision (or on
the reason string). -/
theorem is_quota_available_ignores_farmer (q : AdminQuota) (requested_area : Rat)
    (f1 f2 : Option Nat) :
    q.is_quota_available requested_area f1 = q.is_quota_available requested_area f2 :=
  rfl

/-- Claim C9: for a quota satisfying the invariant, when `allocate_area A`
with farmer-count increment succeeds, releasing `A` with farmer-count
decrement restores `allocated_area` and `allocated_farmer_count` to exactly
their prior values. -/
theorem allocate_release_roundtrip (q q1 : AdminQuota) (a : Rat)
    (hinv : QuotaInv q) (halloc : q.allocate_area a true = some q1) :
    (q1.release_area a true).allocated_area = q.allocated_area ∧
    (q1.release_area a true).allocated_farmer_count = q.allocated_farmer_count := by
  unfold AdminQuota.allocate_area at halloc
  split at halloc
  · exact absurd halloc (by simp)
  · rw [Option.some.injEq] at halloc
    subst halloc
    unfold AdminQuota.release_area
    have h1 : q.allocated_area + a - a = q.allocated_area := add_sub_cancel_right _ _
    have h2 : q.allocated_farmer_count + 1 - 1 = q.allocated_farmer_count := by omega
    refine ⟨?_, ?_⟩
    · simp [h1, max_eq_right hinv.1]
    · simp [h2, max_eq_right hinv.2.2]

/-- A sample quota used to instantiate the allocate/release round-trip:
2 of 10 acres allocated to one farmer. -/
def qRound : AdminQuota :=
  { id := 1, country := "India", state := some "TN", district := some "Salem",
    taluk := none, village := none, crop_name := "rice",
    harvest_season_start := none, harvest_season_end := none,
    total_allowed_area := 10, area_unit := "acres", max_per_farmer := none,
    allocated_area := 2, allocated_farmer_count := 1,
    predicted_demand_volume := none, min_price_per_unit := none,
    max_price_per_unit := none, price_unit := "kg", is_active := true }

/-- Result of allocating 3 acres (and one farmer) from `qRound`. -/
def qRound1 : AdminQuota :=
  { qRound with allocated_area := 5, allocated_farmer_count := 2 }

/-- Witness for claim C9 at a concrete quota: allocating 3 acres from
`qRound` and releasing them again restores both counters. -/
theorem allocate_release_roundtrip_witness :
    (qRound1.release_area 3 true).allocated_area = qRound.allocated_area ∧
    (qRound1.release_area 3 true).allocated_farmer_count = qRound.allocated_farmer_count :=
  allocate_release_roundtrip qRound qRound1 3 (by norm_num [QuotaInv, qRound])
    (by norm_num [AdminQuota.allocate_area, qRound, qRound1])

/-- A harvest sale that has already been approved (10 of 40 kg approved). -/
def saleApproved : HarvestSale :=
  { id := 1, cultivation_id := 1, user_id := 7, actual_yield_quantity := 50,
    selling_quantity := 40, approved_quantity := some 10,
    status := "approved", admin_notes := none, reviewed_by := some 1,
    reviewed_at := some 0 }

/-- Counterexample to claim C8: approving a sale whose status is already
`approved` is not rejected — the handler runs and overwrites
`approved_quantity` (10 becomes 20) and the review fields. -/
theorem harvest_sale_double_review_cex :
    saleApproved.status = "approved" ∧
    saleApproved.approved_quantity = some 10 ∧
    (approve_harvest_sale saleApproved (some 20) none 2 5).status = "approved" ∧
    (approve_harvest_sale saleApproved (some 20) none 2 5).approved_quantity = some 20 ∧
    (approve_harvest_sale saleApproved (some 20) none 2 5).reviewed_by = some 2 := by
  refine ⟨rfl, rfl, rfl, ?_, rfl⟩
  norm_num [approve_harvest_sale, saleApproved]

/-- Claim C8, amended: `approve_harvest_sale` and `reject_harvest_sale`
perform no pending-status check at all — for every sale, whatever its
current status (including one already approved or rejected), they
unconditionally overwrite the status, the approved quantity (on approval)
and the review fields. -/
theorem harvest_sale_review_unconditional (s : HarvestSale) (aq : Option Rat)
    (an : Option String) (notes : String) (admin_id : Nat) (now : Int) :
    (approve_harvest_sale s aq an admin_id now).status = "approved" ∧
    (approve_harvest_sale s aq an admin_id now).approved_quantity =
      some (aq.getD s.selling_quantity) ∧
    (approve_harvest_sale s aq an admin_id now).reviewed_by = some admin_id ∧
    (approve_harvest_sale s aq an admin_id now).reviewed_at = some now ∧
    (reject_harvest_sale s notes admin_id now).status = "rejected" ∧
    (reject_harvest_sale s notes admin_id now).admin_notes = some notes ∧
    (reject_harvest_sale s notes admin_id now).reviewed_by = some admin_id :=
  ⟨rfl, rfl, rfl, rfl, rfl, rfl, rfl⟩

/-- A cultivation that has already been harvested. -/
def cultHarvested : Cultivation :=
  { id := 1, user_id := 7, land_id := 1, quota_id := some 1, crop_name := "rice",
    area_used := 3, status := "harvested", estimated_yield := some 100,
    actual_yield := some 95, actual_harvest_date := some 10,
    max_allowed_sale_quantity := some 110 }

/-- Counterexample to claim C7: `update_status` performs no transition
check, so a cultivation whose status is the supposedly terminal
`harvested` is moved back to `active` by a status-update request. -/
theorem harvested_not_terminal_cex :
    cultHarvested.status = "harvested" ∧
    (update_status cultHarvested "active" none 20).status = "active" := by
  constructor
  · rfl
  · simp [update_status, cultHarvested]

/-- Claim C7, amended: the code enforces no state machine. `update_status`
sets any requested status among `planned`, `active`, `harvested`, `failed`
regardless of the current status (so `harvested`, `failed` and `cancelled`
are not terminal under status updates), leaves the cultivation unchanged
for any other requested status, and `cancel_cultivation` rejects only a
`harvested` cultivation, moving every other status — including `failed`
and `cancelled` — to `cancelled`. -/
theorem status_transitions_characterization :
    (∀ (c : Cultivation) (s : String) (ay : Option Rat) (d : Int),
      (s = "planned" ∨ s = "active" ∨ s = "harvested" ∨ s = "failed") →
      (update_status c s ay d).status = s) ∧
    (∀ (c : Cultivation) (s : String) (ay : Option Rat) (d : Int),
      ¬(s = "planned" ∨ s = "active" ∨ s = "harvested" ∨ s = "failed") →
      update_status c s ay d = c) ∧
    (∀ st : CancelState, st.cultivation.status = "harvested" →
      cancel_cultivation st = none) ∧
    (∀ st : CancelState, st.cultivation.status ≠ "harvested" →
      ∃ st', cancel_cultivation st = some st' ∧
        st'.cultivation.status = "cancelled") := by
  refine ⟨?_, ?_, ?_, ?_⟩
  · intro c s ay d hs
    rcases hs with h | h | h | h <;> subst h <;> simp [update_status]
  · intro c s ay d hs
    push_neg at hs
    obtain ⟨h1, h2, h3, h4⟩ := hs
    simp [update_status, h1, h2, h3, h4]
  · intro st hst
    simp [cancel_cultivation, hst]
  · intro st hst
    unfold cancel_cultivation
    rw [if_neg (by simp [hst])]
    exact ⟨_, rfl, rfl⟩

/-- Witness for the amended claim C7 at concrete inputs: the harvested
cultivation accepts a status update to `failed`, and a request for the
unknown status `cancelled-by-phone` is ignored. -/
theorem status_transitions_characterization_witness :
    (update_status cultHarvested "failed" none 20).status = "failed" ∧
    update_status cultHarvested "cancelled-by-phone" none 20 = cultHarvested :=
  ⟨status_transitions_characterization.1 cultHarvested "failed" none 20
      (Or.inr (Or.inr (Or.inr rfl))),
    status_transitions_characterization.2.1 cultHarvested "cancelled-by-phone" none 20
      (by simp)⟩

/-- Claim C5: `cancel_cultivation` fails unconditionally on a `harvested`
cultivation; for a `planned` cultivation holding `area_used = A` against a
quota (so the quota accounts for the allocation: `A ≤ allocated_area` and
the farmer counter is positive), it decreases `allocated_area` by exactly
`A`, decreases `allocated_farmer_count` by exactly one, and sets the
cultivation's status to `cancelled`. -/
theorem cancel_cultivation_correct :
    (∀ st : CancelState, st.cultivation.status = "harvested" →
      cancel_cultivation st = none) ∧
    (∀ (st : CancelState) (q : AdminQuota),
      st.cultivation.status = "planned" → st.quota = some q →
      st.cultivation.area_used ≤ q.allocated_area →
      1 ≤ q.allocated_farmer_count →
      ∃ st', cancel_cultivation st = some st' ∧
        st'.cultivation.status = "cancelled" ∧
        ∃ q', st'.quota = some q' ∧
          q'.allocated_area = q.allocated_area - st.cultivation.area_used ∧
          q'.allocated_farmer_count = q.allocated_farmer_count - 1) := by
  constructor
  · intro st hst
    simp [cancel_cultivation, hst]
  · intro st q hst hq harea hcount
    unfold cancel_cultivation
    rw [if_neg (by simp [hst])]
    refine ⟨_, rfl, rfl, ?_⟩
    rw [hq]
    refine ⟨q.release_area st.cultivation.area_used true, rfl, ?_, ?_⟩
    · unfold AdminQuota.release_area
      exact max_eq_right (by linarith)
    · unfold AdminQuota.release_area
      simp only [if_pos]
      omega

/-- A planned cultivation holding 3 acres against quota 1. -/
def cultPlanned : Cultivation :=
  { id := 2, user_id := 7, land_id := 1, quota_id := some 1, crop_name := "rice",
    area_used := 3, status := "planned", estimated_yield := some 100,
    actual_yield := none, actual_harvest_date := none,
    max_allowed_sale_quantity := some 110 }

/-- The quota of `cultPlanned`: 5 of 10 acres allocated to two farmers. -/
def quotaCancel : AdminQuota :=
  { qRound with allocated_area := 5, allocated_farmer_count := 2 }

/-- The cancellation state pairing `cultPlanned` with `quotaCancel` and no
legacy region-limit row. -/
def cancelStatePlanned : CancelState :=
  { cultivation := cultPlanned, quota := some quotaCancel, region_limit := none }

/-- Witness for claim C5 at a concrete state: cancelling the planned
3-acre cultivation releases exactly 3 acres (5 becomes 2) and one farmer
slot (2 becomes 1), and marks the cultivation cancelled. -/
theorem cancel_cultivation_correct_witness :
    (cancel_cultivation cancelStatePlanned).map
        (fun st' => (st'.cultivation.status,
          st'.quota.map (fun q' => (q'.allocated_area, q'.allocated_farmer_count)))) =
      some ("cancelled", some ((2 : Rat), (1 : Int))) := by
  obtain ⟨st', h1, h2, q', h3, h4, h5⟩ :=
    cancel_cultivation_correct.2 cancelStatePlanned quotaCancel rfl rfl
      (by norm_num [cancelStatePlanned, cultPlanned, quotaCancel, qRound])
      (by norm_num [quotaCancel, qRound])
  rw [h1]
  simp [h2, h3, h4, h5]
  norm_num [quotaCancel, qRound, cancelStatePlanned, cultPlanned]

/-- Releasing a nonnegative area preserves the quota invariant. -/
theorem release_area_inv (q : AdminQuota) (a : Rat) (dec : Bool)
    (hq : QuotaInv q) (ha : 0 ≤ a) : QuotaInv (q.release_area a dec) := by
  obtain ⟨h0, h1, h2⟩ := hq
  unfold AdminQuota.release_area QuotaInv
  refine ⟨le_max_left 0 _, ?_, ?_⟩
  · exact max_le (h0.trans h1) (by linarith)
  · dsimp only
    split
    · exact le_max_left 0 _
    · exact h2

/-- A successful availability check bounds the request by the remaining
area: `is_quota_available` returning `true` implies
`allocated_area + requested_area ≤ total_allowed_area`. -/
theorem is_quota_available_bound (q : AdminQuota) (a : Rat) (f : Option Nat)
    (h : (q.is_quota_available a f).1 = true) :
    q.allocated_area + a ≤ q.total_allowed_area := by
  unfold AdminQuota.is_quota_available at h
  split at h
  · exact absurd h (by simp)
  · dsimp only at h
    split at h
    · exact absurd h (by simp)
    · rename_i hrem
      unfold AdminQuota.remaining_area at hrem
      rw [not_lt] at hrem
      linarith

/-- One quota-mutating operation with a nonnegative area argument
preserves the quota invariant. -/
theorem applyQuotaOp_inv (q : AdminQuota) (op : QuotaOp)
    (hq : QuotaInv q) (ha : 0 ≤ op.area) : QuotaInv (applyQuotaOp q op) := by
  obtain ⟨h0, h1, h2⟩ := hq
  cases op with
  | allocate a inc =>
    simp only [QuotaOp.area] at ha
    cases halloc : q.allocate_area a inc with
    | none =>
      simp only [applyQuotaOp, halloc]
      exact ⟨h0, h1, h2⟩
    | some q1 =>
      simp only [applyQuotaOp, halloc]
      unfold AdminQuota.allocate_area at halloc
      split at halloc
      · exact absurd halloc (by simp)
      · rename_i hle
        rw [not_lt] at hle
        rw [Option.some.injEq] at halloc
        subst halloc
        refine ⟨?_, ?_, ?_⟩
        · show (0 : Rat) ≤ q.allocated_area + a
          linarith
        · show q.allocated_area + a ≤ q.total_allowed_area
          exact hle
        · show (0 : Int) ≤
            if inc = true then q.allocated_farmer_count + 1 else q.allocated_farmer_count
          split <;> omega
  | release a dec =>
    simp only [QuotaOp.area] at ha
    simp only [applyQuotaOp]
    exact release_area_inv q a dec ⟨h0, h1, h2⟩ ha
  | start a =>
    simp only [QuotaOp.area] at ha
    simp only [applyQuotaOp]
    split
    · rename_i hav
      have hb := is_quota_available_bound q a none hav
      refine ⟨?_, ?_, ?_⟩
      · show (0 : Rat) ≤ q.allocated_area + a
        linarith
      · show q.allocated_area + a ≤ q.total_allowed_area
        exact hb
      · show (0 : Int) ≤ q.allocated_farmer_count + 1
        omega
    · exact ⟨h0, h1, h2⟩
  | cancel a status =>
    simp only [QuotaOp.area] at ha
    simp only [applyQuotaOp]
    split
    · exact ⟨h0, h1, h2⟩
    · exact release_area_inv q a true ⟨h0, h1, h2⟩ ha

/-- Claim C1, amended: starting from a quota satisfying
`0 ≤ allocated_area ≤ total_allowed_area` and `allocated_farmer_count ≥ 0`,
every sequential execution of the quota-mutating operations
(`allocate_area`, `release_area`, the cultivation-start counter update,
`cancel_cultivation`) preserves the invariant provided every area argument
is nonnegative. The nonnegativity proviso is necessary: the request
pipeline never checks the sign of the requested area, and a negative
request drives `allocated_area` below zero (see the counterexample). -/
theorem quota_invariant_preserved_nonneg (ops : List QuotaOp) (q : AdminQuota)
    (hq : QuotaInv q) (hops : ∀ op ∈ ops, 0 ≤ op.area) :
    QuotaInv (runQuotaOps q ops) := by
  induction ops generalizing q with
  | nil => exact hq
  | cons op ops ih =>
    have h1 : QuotaInv (applyQuotaOp q op) :=
      applyQuotaOp_inv q op hq (hops op (List.mem_cons_self op ops))
    exact ih (applyQuotaOp q op) h1 (fun op' h' => hops op' (List.mem_cons_of_mem op h'))

/-- A fresh quota: 10 acres total, nothing allocated, active, no
per-farmer cap. -/
def quotaFresh : AdminQuota :=
  { qRound with allocated_area := 0, allocated_farmer_count := 0 }

/-- Counterexample to claim C1 as stated: a cultivation-start request for
a negative area (never excluded by the code: the land-size check and
`is_quota_available` both pass for it) drives `allocated_area` of a fresh
invariant-satisfying quota to `-1 < 0`, violating the invariant. -/
theorem quota_invariant_negative_area_cex :
    QuotaInv quotaFresh ∧
    (quotaFresh.is_quota_available (-1) none).1 = true ∧
    (runQuotaOps quotaFresh [QuotaOp.start (-1)]).allocated_area = -1 ∧
    ¬ QuotaInv (runQuotaOps quotaFresh [QuotaOp.start (-1)]) := by
  have havail : (quotaFresh.is_quota_available (-1) none).1 = true := by
    norm_num [AdminQuota.is_quota_available, AdminQuota.remaining_area, ratTruthy,
      quotaFresh, qRound]
  have hrun : (runQuotaOps quotaFresh [QuotaOp.start (-1)]).allocated_area = -1 := by
    simp only [runQuotaOps, List.foldl, applyQuotaOp, havail, if_true,
      start_cultivation_counter_update]
    norm_num [quotaFresh, qRound]
  refine ⟨?_, havail, hrun, ?_⟩
  · norm_num [QuotaInv, quotaFresh, qRound]
  · intro hinv
    have h := hinv.1
    rw [hrun] at h
    norm_num at h

/-- Witness for the amended claim C1: allocating and then releasing 3
acres on the fresh quota keeps the invariant. -/
theorem quota_invariant_preserved_nonneg_witness :
    QuotaInv (runQuotaOps quotaFresh
      [QuotaOp.allocate 3 true, QuotaOp.release 3 true]) :=
  quota_invariant_preserved_nonneg [QuotaOp.allocate 3 true, QuotaOp.release 3 true]
    quotaFresh (by norm_num [QuotaInv, quotaFresh, qRound])
    (by intro op h
        fin_cases h <;> norm_num [QuotaOp.area])

/-- Claim C6: given season-date fields that parse (non-`bad`), the quota
edit is rejected exactly when the submitted `total_allowed_area` (defaulting
to the current one) is strictly below the current `allocated_area`; a
rejection commits nothing (the handler returns before
`db.session.commit()`, so the pending assignments are rolled back), and an
accepted edit stores the submitted total and leaves `allocated_area`
untouched. -/
theorem edit_quota_integrity :
    ∀ (q : AdminQuota) (f : EditQuotaForm),
      f.harvest_season_start ≠ DateField.bad →
      f.harvest_season_end ≠ DateField.bad →
      (((edit_quota q f).isOk = false ↔
          f.total_allowed_area.getD q.total_allowed_area < q.allocated_area) ∧
        (∀ q', edit_quota q f = Except.ok q' →
          q'.total_allowed_area = f.total_allowed_area.getD q.total_allowed_area ∧
          q'.allocated_area = q.allocated_area)) := by
  intro q f h1 h2
  have hp1 : ∃ v, f.harvest_season_start.parse = some v := by
    cases hf : f.harvest_season_start with
    | empty => exact ⟨none, rfl⟩
    | bad => exact absurd hf h1
    | parsed d => exact ⟨some d, rfl⟩
  have hp2 : ∃ v, f.harvest_season_end.parse = some v := by
    cases hf : f.harvest_season_end with
    | empty => exact ⟨none, rfl⟩
    | bad => exact absurd hf h2
    | parsed d => exact ⟨some d, rfl⟩
  obtain ⟨v1, hv1⟩ := hp1
  obtain ⟨v2, hv2⟩ := hp2
  constructor
  · unfold edit_quota
    rw [hv1, hv2]
    dsimp only
    split
    · rename_i hlt
      simp [Except.isOk, Except.toBool, hlt]
    · rename_i hlt
      simp [Except.isOk, Except.toBool, hlt]
  · intro q' hok
    unfold edit_quota at hok
    rw [hv1, hv2] at hok
    dsimp only at hok
    split at hok
    · cases hok
    · rw [Except.ok.injEq] at hok
      subst hok
      exact ⟨rfl, rfl⟩

/-- The quota of the admin-edit scenario: 5 of 10 acres allocated. -/
def quotaEdit : AdminQuota :=
  { qRound with allocated_area := 5, allocated_farmer_count := 2 }

/-- An edit form that only changes `total_allowed_area` to the given
value, leaving the dates empty and every other key absent or falsy. -/
def editTotalForm (t : Rat) : EditQuotaForm :=
  { harvest_season_start := DateField.empty, harvest_season_end := DateField.empty,
    country := none, state := none, district := none, taluk := none,
    village := none, crop_name := none, total_allowed_area := some t,
    area_unit := none, max_per_farmer := none, predicted_demand_volume := none,
    min_price_per_unit := none, max_price_per_unit := none, price_unit := none,
    is_active := true }

/-- Witness for claim C6 at the scenario inputs: with `allocated_area = 5`,
editing `total_allowed_area` from 10 down to 4 is rejected, while editing
it to 6 succeeds, stores 6, and keeps `allocated_area = 5`. -/
theorem edit_quota_integrity_witness :
    (edit_quota quotaEdit (editTotalForm 4)).isOk = false ∧
    (edit_quota quotaEdit (editTotalForm 6)).isOk = true ∧
    (edit_quota quotaEdit (editTotalForm 6)).map
      (fun q' => (q'.total_allowed_area, q'.allocated_area)) =
        Except.ok ((6 : Rat), (5 : Rat)) := by
  have h4 := edit_quota_integrity quotaEdit (editTotalForm 4) (by simp [editTotalForm])
    (by simp [editTotalForm])
  have h6 := edit_quota_integrity quotaEdit (editTotalForm 6) (by simp [editTotalForm])
    (by simp [editTotalForm])
  refine ⟨?_, ?_, ?_⟩
  · exact h4.1.mpr (by norm_num [editTotalForm, quotaEdit, qRound])
  · rcases hok : edit_quota quotaEdit (editTotalForm 6) with e | q'
    · exact absurd (h6.1.mp (by rw [hok]; rfl))
        (by norm_num [editTotalForm, quotaEdit, qRound])
    · rfl
  · rcases hok : edit_quota quotaEdit (editTotalForm 6) with e | q'
    · exact absurd (h6.1.mp (by rw [hok]; rfl))
        (by norm_num [editTotalForm, quotaEdit, qRound])
    · have hq := h6.2 q' hok
      show Except.ok (q'.total_allowed_area, q'.allocated_area) =
        Except.ok ((6 : Rat), (5 : Rat))
      rw [hq.1, hq.2]
      norm_num [editTotalForm, quotaEdit, qRound]

/-- The harvest-window condition of the specification: when the quota has
both season bounds, the harvest date lies in `[start, end]`; otherwise no
restriction. -/
def harvestWindowOk (quota : Option AdminQuota) (d : Int) : Prop :=
  match quota with
  | none => True
  | some q =>
    match q.harvest_season_start, q.harvest_season_end with
    | some s, some e => s ≤ d ∧ d ≤ e
    | _, _ => True

/-- A planned cultivation whose estimated yield is the falsy value `0`. -/
def cZeroYield : Cultivation :=
  { id := 3, user_id := 7, land_id := 1, quota_id := none, crop_name := "rice",
    area_used := 0, status := "planned", estimated_yield := some 0,
    actual_yield := none, actual_harvest_date := none,
    max_allowed_sale_quantity := none }

/-- Counterexample to claim C4 as stated: with `estimated_yield = 0` the
submitted quantity `1` exceeds `estimated_yield × (1 + tolerance) = 0`,
so the claim demands rejection — but the code guards the tolerance check
with Python truthiness of `estimated_yield`, so `0` disables it and the
submission is accepted. -/
theorem validate_harvest_zero_yield_cex :
    cZeroYield.estimated_yield = some 0 ∧
    (1 : Rat) > (0 : Rat) * (1 + 1 / 10) ∧
    (validate_harvest_submission none cZeroYield 0 1 (1 / 10)).1 = true := by
  refine ⟨rfl, by norm_num, ?_⟩
  norm_num [validate_harvest_submission, validate_rest, ratTruthy, cZeroYield]

/-- Characterization of the status and yield-tolerance tail of
`validate_harvest_submission`: it accepts iff the status is `planned` or
`active` and, when `estimated_yield` is truthy, the quantity is within
tolerance. -/
theorem validate_rest_iff (c : Cultivation) (qty tol : Rat) :
    (validate_rest c qty tol).1 = true ↔
      ((c.status = "planned" ∨ c.status = "active") ∧
        (ratTruthy c.estimated_yield = true →
          qty ≤ c.estimated_yield.getD 0 * (1 + tol))) := by
  unfold validate_rest
  split_ifs with h1 h2
  · constructor
    · intro h
      exact h.elim
    · rintro ⟨hst, -⟩
      simp at h1
      exact absurd hst (by tauto)
  · rw [Bool.and_eq_true] at h2
    obtain ⟨ht, hgt⟩ := h2
    rw [decide_eq_true_eq] at hgt
    constructor
    · intro h
      exact h.elim
    · rintro ⟨-, himp⟩
      exact ((not_le.mpr hgt) (himp ht)).elim
  · have hst : c.status = "planned" ∨ c.status = "active" := by
      simp at h1
      tauto
    have hyd : ratTruthy c.estimated_yield = true →
        qty ≤ c.estimated_yield.getD 0 * (1 + tol) := by
      intro ht
      by_contra hgt
      exact h2 (by simp [ht, not_le.mp hgt])
    exact iff_of_true rfl ⟨hst, hyd⟩

/-- Claim C4, amended: `validate_harvest_submission` accepts iff the
harvest date is inside the quota's season window (when both bounds are
set), the status is `planned` or `active`, and — only when
`estimated_yield` is set and nonzero (Python truthiness) — the quantity is
at most `estimated_yield × (1 + tolerance)`. The boundary behaviour of the
claim is unchanged: with `estimated_yield = 100` and `tolerance = 0.10`,
quantity `110` is accepted and `110.01` is rejected. -/
theorem validate_harvest_characterization :
    (∀ (quota : Option AdminQuota) (c : Cultivation) (d : Int) (qty tol : Rat),
      ((validate_harvest_submission quota c d qty tol).1 = true ↔
        harvestWindowOk quota d ∧ (c.status = "planned" ∨ c.status = "active") ∧
          (ratTruthy c.estimated_yield = true →
            qty ≤ c.estimated_yield.getD 0 * (1 + tol)))) ∧
    (validate_harvest_submission none
      { cZeroYield with estimated_yield := some 100 } 0 110 (1 / 10)).1 = true ∧
    (validate_harvest_submission none
      { cZeroYield with estimated_yield := some 100 } 0 (11001 / 100) (1 / 10)).1 = false := by
  refine ⟨?_, ?_, ?_⟩
  · intro quota c d qty tol
    have hrest := validate_rest_iff c qty tol
    rcases quota with _ | q
    · unfold validate_harvest_submission harvestWindowOk
      rw [hrest]
      simp
    · rcases hs : q.harvest_season_start with _ | s <;>
        rcases he : q.harvest_season_end with _ | e <;>
        unfold validate_harvest_submission harvestWindowOk <;>
        simp only [hs, he]
      · rw [hrest]; simp
      · rw [hrest]; simp
      · rw [hrest]; simp
      · cases hb : ((s ≤ d && d ≤ e) : Bool) with
        | true =>
          have hw : s ≤ d ∧ d ≤ e := by simpa using hb
          rw [if_neg (by simp [hb])]
          rw [hrest]
          simp [hw.1, hw.2]
        | false =>
          have hw : ¬(s ≤ d ∧ d ≤ e) := by
            intro hc
            simp [hc.1, hc.2] at hb
          rw [if_pos (by simp [hb])]
          simp [hw]
  · norm_num [validate_harvest_submission, validate_rest, ratTruthy, cZeroYield]
  · norm_num [validate_harvest_submission, validate_rest, ratTruthy, cZeroYield]

/-- Witness for the amended claim C4: a planned cultivation with estimated
yield 100 and quantity 50 under tolerance 0.10 is accepted. -/
theorem validate_harvest_characterization_witness :
    (validate_harvest_submission none
      { cZeroYield with estimated_yield := some 100 } 0 50 (1 / 10)).1 = true :=
  (validate_harvest_characterization.1 none
      { cZeroYield with estimated_yield := some 100 } 0 50 (1 / 10)).mpr
    ⟨trivial, Or.inl rfl, fun _ => by norm_num [cZeroYield]⟩

/-- The quota of the per-farmer scenario: village-scoped, 5 of 10 acres
allocated, per-farmer cap of 5. -/
def quotaC2 : AdminQuota :=
  { id := 1, country := "India", state := some "TN", district := some "Salem",
    taluk := some "T", village := some "V2", crop_name := "rice",
    harvest_season_start := none, harvest_season_end := none,
    total_allowed_area := 10, area_unit := "acres", max_per_farmer := some 5,
    allocated_area := 5, allocated_farmer_count := 1,
    predicted_demand_volume := none, min_price_per_unit := none,
    max_price_per_unit := none, price_unit := "kg", is_active := true }

/-- A land in the village of `quotaC2`, owned by farmer 7. -/
def landC2 : Land :=
  { id := 1, user_id := 7, country := "India", state := some "TN",
    district := some "Salem", taluk := some "T", village := some "V2",
    land_size := 10 }

/-- Farmer 7's existing cultivation holding 5 acres against `quotaC2`. -/
def cultC2 : Cultivation :=
  { id := 10, user_id := 7, land_id := 1, quota_id := some 1,
    crop_name := "rice", area_used := 5, status := "planned",
    estimated_yield := some 100, actual_yield := none,
    actual_harvest_date := none, max_allowed_sale_quantity := some 110 }

/-- The cultivation table of the per-farmer scenario. -/
def csC2 : List Cultivation := [cultC2]

/-- Counterexample to claim C2: farmer 7 already holds 5 acres against
`quotaC2` (cap 5), so the claimed cumulative check would reject a further
1-acre request (5 + 1 > 5) — and `check_per_farmer_limit` indeed rejects —
but the cultivation-start gate `check_admin_quota` never invokes it and
accepts the request. -/
theorem per_farmer_limit_not_enforced_cex :
    quotaC2.max_per_farmer = some 5 ∧
    existingFarmerArea csC2 quotaC2.id 7 + 1 > (5 : Rat) ∧
    (AdminQuota.check_per_farmer_limit quotaC2 csC2 7 1).1 = false ∧
    (check_admin_quota [quotaC2] [] landC2 "rice" 1 7).1 = true := by
  refine ⟨rfl, ?_, ?_, ?_⟩
  · norm_num [existingFarmerArea, List.filter, List.foldl, quotaC2, csC2, cultC2]
  · norm_num [AdminQuota.check_per_farmer_limit, existingFarmerArea, List.filter,
      List.foldl, ratTruthy, quotaC2, csC2, cultC2]
  · simp only [check_admin_quota, find_matching_quota, villagePred, strTruthy,
      List.find?, quotaC2, landC2]
    simp +decide
    norm_num [AdminQuota.is_quota_available, AdminQuota.remaining_area, ratTruthy]

/-- Claim C2, amended: at cultivation start only the per-request
availability check runs — whenever a quota is resolved, the outcome of
`check_admin_quota` equals the outcome of `is_quota_available` alone
(quota active, remaining area sufficient, request at most `max_per_farmer`
when set); the cumulative `check_per_farmer_limit` is not invoked, so the
farmer's existing allocations never influence the decision, and a farmer
already holding the full per-farmer cap has a further request accepted
while remaining area suffices. -/
theorem start_gate_only_per_request_cap :
    (∀ (qs : List AdminQuota) (limits : List RegionLimit) (land : Land)
        (crop : String) (area : Rat) (farmer : Nat) (q : AdminQuota),
      find_matching_quota qs land crop = some q →
      (check_admin_quota qs limits land crop area farmer).1 =
        (q.is_quota_available area (some farmer)).1) ∧
    (check_admin_quota [quotaC2] [] landC2 "rice" 1 7).1 = true := by
  constructor
  · intro qs limits land crop area farmer q hfind
    unfold check_admin_quota
    rw [hfind]
    dsimp only
    cases h : (q.is_quota_available area (some farmer)).1 with
    | true => simp [h]
    | false => simp [h]
  · simp only [check_admin_quota, find_matching_quota, villagePred, strTruthy,
      List.find?, quotaC2, landC2]
    simp +decide
    norm_num [AdminQuota.is_quota_available, AdminQuota.remaining_area, ratTruthy]

/-- Witness for the amended claim C2 at the scenario inputs: the start
gate's verdict coincides with `is_quota_available` alone. -/
theorem start_gate_only_per_request_cap_witness :
    (check_admin_quota [quotaC2] [] landC2 "rice" 1 7).1 =
      (quotaC2.is_quota_available 1 (some 7)).1 :=
  start_gate_only_per_request_cap.1 [quotaC2] [] landC2 "rice" 1 7 quotaC2
    (by simp only [find_matching_quota, villagePred, strTruthy, List.find?,
        quotaC2, landC2]
        simp +decide)

/-- A guarded level query of the resolver returned nothing: either the
land's location field for the level is falsy (the query is skipped) or no
quota in the table satisfies the level's predicate. -/
def noLevelHit (g : Bool) (p : AdminQuota → Bool) (qs : List AdminQuota) : Prop :=
  g = false ∨ ∀ q ∈ qs, p q = false

/-- The optional resolver result is a quota satisfying `p`. -/
def optHolds (p : AdminQuota → Bool) : Option AdminQuota → Bool
  | none => false
  | some q => p q

/-- A level query with no hit evaluates to `none`. -/
theorem guardedFind_eq_none (g : Bool) (p : AdminQuota → Bool)
    (qs : List AdminQuota) (h : noLevelHit g p qs) :
    (if g then qs.find? p else none) = none := by
  rcases h with h | h
  · rw [h]
    simp
  · cases g
    · simp
    · simp only [if_true]
      exact List.find?_eq_none.mpr (fun x hx => by simp [h x hx])

/-- A level query whose guard holds and whose predicate has a witness in
the table evaluates to some quota satisfying the predicate. -/
theorem guardedFind_holds (g : Bool) (p : AdminQuota → Bool)
    (qs : List AdminQuota) (hg : g = true) (hex : ∃ q ∈ qs, p q = true) :
    optHolds p (if g then qs.find? p else none) = true := by
  subst hg
  simp only [if_true]
  have hsome : (qs.find? p).isSome := by
    rw [List.find?_isSome]
    exact hex
  cases hfind : qs.find? p with
  | none =>
    rw [hfind] at hsome
    cases hsome
  | some q =>
    have hq := List.find?_some hfind
    simp [optHolds, hq]

/-- A district-level quota for rice (no taluk or village scope). -/
def quotaDistrictS : AdminQuota :=
  { id := 21, country := "India", state := some "S", district := some "D",
    taluk := none, village := none, crop_name := "rice",
    harvest_season_start := none, harvest_season_end := none,
    total_allowed_area := 100, area_unit := "acres", max_per_farmer := none,
    allocated_area := 0, allocated_farmer_count := 0,
    predicted_demand_volume := none, min_price_per_unit := none,
    max_price_per_unit := none, price_unit := "kg", is_active := true }

/-- A village-level quota for rice in village `V`. -/
def quotaVillageS : AdminQuota :=
  { quotaDistrictS with
    id := 22, taluk := some "T", village := some "V", total_allowed_area := 20 }

/-- A land located in village `V` of district `D`. -/
def landS : Land :=
  { id := 3, user_id := 7, country := "India", state := some "S",
    district := some "D", taluk := some "T", village := some "V",
    land_size := 10 }

/-- The quota table of the precedence scenario, district-level row first. -/
def qsScenario : List AdminQuota := [quotaDistrictS, quotaVillageS]

/-- Claim C3: `find_matching_quota` resolves in strict precedence order —
an active village-exact match wins; otherwise a taluk-exact match with no
village scope; otherwise district-exact with no taluk/village scope;
otherwise state-level with no narrower scope; otherwise country-level with
no narrower scope; levels are never merged (the result always satisfies
the predicate of the single level that produced it). In particular, with
both a village-level and a district-level active rice quota, a land in
that village resolves to the village-level quota even though the
district-level row comes first in the table. -/
theorem find_matching_quota_precedence :
    (∀ (qs : List AdminQuota) (land : Land) (crop : String),
      strTruthy land.village = true →
      (∃ q ∈ qs, villagePred land crop q = true) →
      optHolds (villagePred land crop) (find_matching_quota qs land crop) = true) ∧
    (∀ (qs : List AdminQuota) (land : Land) (crop : String),
      noLevelHit (strTruthy land.village) (villagePred land crop) qs →
      strTruthy land.taluk = true →
      (∃ q ∈ qs, talukPred land crop q = true) →
      optHolds (talukPred land crop) (find_matching_quota qs land crop) = true) ∧
    (∀ (qs : List AdminQuota) (land : Land) (crop : String),
      noLevelHit (strTruthy land.village) (villagePred land crop) qs →
      noLevelHit (strTruthy land.taluk) (talukPred land crop) qs →
      strTruthy land.district = true →
      (∃ q ∈ qs, districtPred land crop q = true) →
      optHolds (districtPred land crop) (find_matching_quota qs land crop) = true) ∧
    (∀ (qs : List AdminQuota) (land : Land) (crop : String),
      noLevelHit (strTruthy land.village) (villagePred land crop) qs →
      noLevelHit (strTruthy land.taluk) (talukPred land crop) qs →
      noLevelHit (strTruthy land.district) (districtPred land crop) qs →
      strTruthy land.state = true →
      (∃ q ∈ qs, statePred land crop q = true) →
      optHolds (statePred land crop) (find_matching_quota qs land crop) = true) ∧
    (∀ (qs : List AdminQuota) (land : Land) (crop : String),
      noLevelHit (strTruthy land.village) (villagePred land crop) qs →
      noLevelHit (strTruthy land.taluk) (talukPred land crop) qs →
      noLevelHit (strTruthy land.district) (districtPred land crop) qs →
      noLevelHit (strTruthy land.state) (statePred land crop) qs →
      (∃ q ∈ qs, countryPred land crop q = true) →
      optHolds (countryPred land crop) (find_matching_quota qs land crop) = true) ∧
    find_matching_quota qsScenario landS "rice" = some quotaVillageS := by
  refine ⟨?_, ?_, ?_, ?_, ?_, ?_⟩
  · intro qs land crop hg hex
    have h := guardedFind_holds _ _ qs hg hex
    cases hv : (if strTruthy land.village then qs.find? (villagePred land crop)
        else none) with
    | none =>
      rw [hv] at h
      simp [optHolds] at h
    | some q =>
      rw [hv] at h
      unfold find_matching_quota
      rw [hv]
      exact h
  · intro qs land crop h1 hg hex
    have hn1 := guardedFind_eq_none _ _ qs h1
    have h := guardedFind_holds _ _ qs hg hex
    cases hv : (if strTruthy land.taluk then qs.find? (talukPred land crop)
        else none) with
    | none =>
      rw [hv] at h
      simp [optHolds] at h
    | some q =>
      rw [hv] at h
      unfold find_matching_quota
      rw [hn1]
      simp only [hv]
      exact h
  · intro qs land crop h1 h2 hg hex
    have hn1 := guardedFind_eq_none _ _ qs h1
    have hn2 := guardedFind_eq_none _ _ qs h2
    have h := guardedFind_holds _ _ qs hg hex
    cases hv : (if strTruthy land.district then qs.find? (districtPred land crop)
        else none) with
    | none =>
      rw [hv] at h
      simp [optHolds] at h
    | some q =>
      rw [hv] at h
      unfold find_matching_quota
      rw [hn1]
      simp only [hn2, hv]
      exact h
  · intro qs land crop h1 h2 h3 hg hex
    have hn1 := guardedFind_eq_none _ _ qs h1
    have hn2 := guardedFind_eq_none _ _ qs h2
    have hn3 := guardedFind_eq_none _ _ qs h3
    have h := guardedFind_holds _ _ qs hg hex
    cases hv : (if strTruthy land.state then qs.find? (statePred land crop)
        else none) with
    | none =>
      rw [hv] at h
      simp [optHolds] at h
    | some q =>
      rw [hv] at h
      unfold find_matching_quota
      rw [hn1]
      simp only [hn2, hn3, hv]
      exact h
  · intro qs land crop h1 h2 h3 h4 hex
    have hn1 := guardedFind_eq_none _ _ qs h1
    have hn2 := guardedFind_eq_none _ _ qs h2
    have hn3 := guardedFind_eq_none _ _ qs h3
    have hn4 := guardedFind_eq_none _ _ qs h4
    have hsome : (qs.find? (countryPred land crop)).isSome := by
      rw [List.find?_isSome]
      exact hex
    cases hv : qs.find? (countryPred land crop) with
    | none =>
      rw [hv] at hsome
      cases hsome
    | some q =>
      have hq := List.find?_some hv
      unfold find_matching_quota
      rw [hn1]
      simp only [hn2, hn3, hn4, hv]
      simp [optHolds, hq]
  · simp only [find_matching_quota, villagePred, strTruthy, List.find?,
      qsScenario, quotaDistrictS, quotaVillageS, landS]
    simp +decide

/-- Witness for claim C3 at the scenario inputs: the village level has a
hit, so the resolver's result is a village-exact quota. -/
theorem find_matching_quota_precedence_witness :
    optHolds (villagePred landS "rice") (find_matching_quota qsScenario landS "rice") =
      true :=
  find_matching_quota_precedence.1 qsScenario landS "rice" (by decide) (by decide)
